import Mathlib

/-!
Verification of the NEXUZY_ARTICAL synchronization core against its
natural-language specification.

The Python source is shallowly embedded: SQLite rows become explicit row
structures, the two dataclasses (`User`, `Article` in `db/models.py`) become
Lean structures together with an explicit model of Python keyword-argument
dataclass construction (an unexpected keyword raises `TypeError`), Firestore
documents become association lists from field names to Python-like values,
and network effects (Firestore writes, FTP transfers) are driven by explicit
outcome oracles passed as arguments.  Timestamps are modelled as naturals;
`datetime.isoformat` is modelled as their canonical text rendering.
-/

/-- Python exceptions that the embedded code can raise or catch. -/
inductive PyExc where
  | typeError
  | attributeError
  | integrityError
  | keyError
  | conflictError
  deriving Repr, DecidableEq

/-- Python-like scalar values stored in rows and Firestore documents. -/
inductive PyVal where
  | str (s : String)
  | int (n : Int)
  | dt (t : Nat)
  | none
  deriving Repr, DecidableEq

/-- Model of `datetime.isoformat()`: canonical text form of a timestamp. -/
def isoformat (t : Nat) : String :=
  toString t

/-- The `isinstance(v, datetime)` conversion applied before Firestore writes:
a datetime value is replaced by its isoformat string, others are unchanged. -/
def pyDtToIso (v : PyVal) : PyVal :=
  match v with
  | .dt t => .str (isoformat t)
  | v => v

/-- Extract a Python string (Firestore document ids must be strings). -/
def pyStr? (v : PyVal) : Option String :=
  match v with
  | .str s => some s
  | _ => Option.none

/-- An optional string as a Python value (`None` when absent). -/
def optStrVal (s : Option String) : PyVal :=
  match s with
  | some s => .str s
  | Option.none => .none

/-- A Python dict / Firestore document: field name to value, unique keys. -/
abbrev Doc := List (String × PyVal)

/-- The keys of a document, in order. -/
def Doc.keys (d : Doc) : List String :=
  d.map (fun kv => kv.1)

/-- Dict lookup, `d[k]` / `d.get(k)`. -/
def Doc.get? (d : Doc) (k : String) : Option PyVal :=
  (d.find? (fun kv => kv.1 == k)).map (fun kv => kv.2)

/-- Dict lookup with default, `d.get(k, v)` (default used only when absent). -/
def Doc.getD (d : Doc) (k : String) (v : PyVal) : PyVal :=
  (d.get? k).getD v

/-- Membership test, `k in d`. -/
def Doc.hasKey (d : Doc) (k : String) : Bool :=
  (d.get? k).isSome

/-- Dict assignment `d[k] = v`: overwrite in place or append. -/
def Doc.setKey (d : Doc) (k : String) (v : PyVal) : Doc :=
  if d.hasKey k then d.map (fun kv => if kv.1 == k then (k, v) else kv)
  else d ++ [(k, v)]

/-- A row of the `users` table (`local_db.py` schema). -/
structure UserRow where
  id : String
  username : String
  password_hash : String
  role : String
  last_login : Option Nat
  created_at : Nat
  deriving Repr, DecidableEq

/-- A row of the `articles` table (`local_db.py` schema, including the
`image_path` column added by `_migrate_articles_table`). -/
structure ArticleRow where
  id : String
  article_name : String
  mould : String
  size : String
  gender : String
  created_by : String
  created_at : Nat
  updated_at : Nat
  sync_status : Nat
  image_path : Option String
  deriving Repr, DecidableEq

/-- The local SQLite database state: the two tables. -/
structure LocalDB where
  users : List UserRow
  articles : List ArticleRow
  deriving Repr, DecidableEq

/-- Field names declared by the `Article` dataclass in `db/models.py`. -/
def articleDataclassFields : List String :=
  ["id", "article_name", "mould", "size", "gender", "created_by",
   "created_at", "updated_at", "sync_status"]

/-- Keyword-argument names used at every `Article(...)` construction site in
`local_db.py` (`get_article_by_id`, `get_all_articles`,
`get_pending_articles`, `get_articles_by_user`): note the extra
`image_path` keyword. -/
def articleRowCtorKwargNames : List String :=
  ["id", "article_name", "mould", "size", "gender", "created_by",
   "created_at", "updated_at", "sync_status", "image_path"]

/-- The in-memory `Article` dataclass instance (fields of `models.Article`). -/
structure Article where
  id : String
  article_name : String
  mould : String
  size : String
  gender : String
  created_by : String
  created_at : Nat
  updated_at : Option Nat
  sync_status : Nat
  deriving Repr, DecidableEq

/-- Python dataclass construction `Article(**kwargs)` as performed by the
row-to-object code in `local_db.py`: the generated initializer raises
`TypeError` when any passed keyword is not a declared field. -/
def mkArticleFromRow (r : ArticleRow) : Except PyExc Article :=
  if articleRowCtorKwargNames.all (fun k => articleDataclassFields.contains k) then
    .ok { id := r.id, article_name := r.article_name, mould := r.mould,
          size := r.size, gender := r.gender, created_by := r.created_by,
          created_at := r.created_at, updated_at := some r.updated_at,
          sync_status := r.sync_status }
  else
    .error .typeError

/-- `Article.to_dict` from `db/models.py`. -/
def Article.to_dict (a : Article) : Doc :=
  [("id", .str a.id),
   ("article_name", .str a.article_name),
   ("mould", .str a.mould),
   ("size", .str a.size),
   ("gender", .str a.gender),
   ("created_by", .str a.created_by),
   ("created_at", .str (isoformat a.created_at)),
   ("updated_at", match a.updated_at with
                  | some t => .str (isoformat t)
                  | Option.none => .none),
   ("sync_status", .int a.sync_status)]

/-- Field names declared by the `User` dataclass in `db/models.py`. -/
def userDataclassFields : List String :=
  ["id", "username", "password_hash", "role", "last_login", "created_at"]

/-- Keyword names used at the `User(...)` construction site in
`get_all_users`. -/
def userRowCtorKwargNames : List String :=
  ["id", "username", "password_hash", "role", "last_login", "created_at"]

/-- The in-memory `User` dataclass instance. -/
structure User where
  id : String
  username : String
  password_hash : String
  role : String
  last_login : Option Nat
  created_at : Option Nat
  deriving Repr, DecidableEq

/-- `User(**kwargs)` as called by `get_all_users` (all keywords declared). -/
def mkUserFromRow (r : UserRow) : Except PyExc User :=
  if userRowCtorKwargNames.all (fun k => userDataclassFields.contains k) then
    .ok { id := r.id, username := r.username, password_hash := r.password_hash,
          role := r.role, last_login := r.last_login,
          created_at := some r.created_at }
  else
    .error .typeError

/-- Insertion step for modelling SQL `ORDER BY`. -/
def insertRowBy (le : ArticleRow → ArticleRow → Bool) (a : ArticleRow) :
    List ArticleRow → List ArticleRow
  | [] => [a]
  | b :: rest => if le a b then a :: b :: rest else b :: insertRowBy le a rest

/-- Stable sort of rows, modelling SQL `ORDER BY`. -/
def sortRowsBy (le : ArticleRow → ArticleRow → Bool) (l : List ArticleRow) :
    List ArticleRow :=
  l.foldr (insertRowBy le) []

/-- `ORDER BY created_at ASC`. -/
def rowCreatedAsc (a b : ArticleRow) : Bool :=
  decide (a.created_at ≤ b.created_at)

/-- `ORDER BY created_at DESC`. -/
def rowCreatedDesc (a b : ArticleRow) : Bool :=
  decide (b.created_at ≤ a.created_at)

/-- The row loop shared by the article list queries: construct an `Article`
per fetched row inside one `try`; the first raised exception abandons the
accumulated list and the enclosing handler returns `[]`. -/
def articlesFromRows (rs : List ArticleRow) : List Article :=
  match rs.mapM mkArticleFromRow with
  | .ok l => l
  | .error _ => []

/-- `LocalDatabase.get_article_by_id`. -/
def get_article_by_id (db : LocalDB) (aid : String) : Option Article :=
  match db.articles.find? (fun r => r.id == aid) with
  | Option.none => Option.none
  | some r =>
    match mkArticleFromRow r with
    | .ok a => some a
    | .error _ => Option.none

/-- `LocalDatabase.get_all_articles` (`SELECT * ... ORDER BY created_at DESC`). -/
def get_all_articles (db : LocalDB) : List Article :=
  articlesFromRows (sortRowsBy rowCreatedDesc db.articles)

/-- `LocalDatabase.get_pending_articles`
(`SELECT * ... WHERE sync_status = 0 ORDER BY created_at ASC`). -/
def get_pending_articles (db : LocalDB) : List Article :=
  articlesFromRows
    (sortRowsBy rowCreatedAsc (db.articles.filter (fun r => r.sync_status == 0)))

/-- `LocalDatabase.get_articles_by_user`. -/
def get_articles_by_user (db : LocalDB) (uid : String) : List Article :=
  articlesFromRows
    (sortRowsBy rowCreatedDesc (db.articles.filter (fun r => r.created_by == uid)))

/-- `LocalDatabase.get_articles_count`. -/
def get_articles_count (db : LocalDB) : Nat :=
  db.articles.length

/-- `LocalDatabase.get_all_users`. -/
def get_all_users (db : LocalDB) : List User :=
  match db.users.mapM mkUserFromRow with
  | .ok l => l
  | .error _ => []

/-- `LocalDatabase.mark_article_synced`: `UPDATE articles SET sync_status = 1
WHERE id = ?` (returns `True`; the callers ignore the value). -/
def mark_article_synced (db : LocalDB) (aid : String) : LocalDB :=
  { db with articles :=
      db.articles.map (fun r => if r.id == aid then { r with sync_status := 1 } else r) }

/-- Remote (Firestore) operations issued by the local-store layer. -/
inductive RemoteOp where
  | updateArticle (aid : String) (updates : Doc)
  | deleteArticle (aid : String)
  | deleteUser (uid : String)
  deriving Repr, DecidableEq

/-- `LocalDatabase.add_user`: plain `INSERT`; a duplicate `id` (primary key)
or `username` (UNIQUE) raises `sqlite3.IntegrityError`, which the function
catches, returning `False`.  No Firebase call appears in the function body,
so the remote-operation trace is empty. -/
def add_user (db : LocalDB) (u : UserRow) :
    Except PyExc Bool × LocalDB × List RemoteOp :=
  if db.users.any (fun r => r.id == u.id || r.username == u.username) then
    (.ok false, db, [])
  else
    (.ok true, { db with users := db.users ++ [u] }, [])

/-- The `updates` dict that `LocalDatabase.update_article` sends to
`FirebaseSync.update_article` when Firebase is connected. -/
def localUpdateArticleUpdates (article_name mould size gender : String)
    (image_path : Option String) : Doc :=
  [("article_name", .str article_name),
   ("mould", .str mould),
   ("size", .str size),
   ("gender", .str gender),
   ("image_path", optStrVal image_path)]

/-- `LocalDatabase.update_article`: the `UPDATE` sets the four fields plus
`updated_at = now`, `sync_status = 0` (pending) and `image_path`; when the
Firebase handler is attached and connected, the updates dict is also sent
remotely; the return value is `cursor.rowcount > 0`. -/
def update_article (db : LocalDB) (fbConnected : Bool) (now : Nat)
    (aid article_name mould size gender : String) (image_path : Option String) :
    Except PyExc Bool × LocalDB × List RemoteOp :=
  let rows := db.articles.map (fun r =>
    if r.id == aid then
      { r with article_name := article_name, mould := mould, size := size,
               gender := gender, updated_at := now, sync_status := 0,
               image_path := image_path }
    else r)
  let rowcount := db.articles.countP (fun r => r.id == aid)
  let remote :=
    if fbConnected then
      [RemoteOp.updateArticle aid
        (localUpdateArticleUpdates article_name mould size gender image_path)]
    else []
  (.ok (decide (0 < rowcount)), { db with articles := rows }, remote)

/-- A Firestore collection: document id to document. -/
abbrev FireStoreColl := List (String × Doc)

/-- Merge a new document into an old one (`set(..., merge=True)` semantics):
every new field is written, other old fields survive. -/
def mergeDocInto (old new : Doc) : Doc :=
  new.foldl (fun d kv => d.setKey kv.1 kv.2) old

/-- `collection.document(id).set(doc, merge=True)`. -/
def collSetMerge (coll : FireStoreColl) (docId : String) (doc : Doc) :
    FireStoreColl :=
  if coll.any (fun e => e.1 == docId) then
    coll.map (fun e => if e.1 == docId then (e.1, mergeDocInto e.2 doc) else e)
  else
    coll ++ [(docId, doc)]

/-- `collection.document(id).update(doc)`: merges fields into an existing
document; fails (raises) when the document does not exist. -/
def collUpdate (coll : FireStoreColl) (docId : String) (doc : Doc) :
    Except PyExc FireStoreColl :=
  if coll.any (fun e => e.1 == docId) then
    .ok (coll.map (fun e => if e.1 == docId then (e.1, mergeDocInto e.2 doc) else e))
  else
    .error .keyError

/-- `FirebaseSync.update_user`: strips `password_hash` from the updates,
then updates the `users` document when anything is left; every failure path
returns `False`. -/
def update_user_safe_updates (updates : Doc) : Doc :=
  updates.filter (fun kv => kv.1 != "password_hash")

/-- `FirebaseSync.update_user` on the remote `users` collection. -/
def update_user (connected : Bool) (users : FireStoreColl) (uid : String)
    (updates : Doc) : Bool × FireStoreColl :=
  if !connected then (false, users)
  else
    let safe := update_user_safe_updates updates
    if safe.isEmpty then (false, users)
    else
      match collUpdate users uid safe with
      | .ok users2 => (true, users2)
      | .error _ => (false, users)

/-- The per-user document built by `FirebaseSync.sync_users`: metadata plus
the `password_hash` key whenever the caller-supplied dict contains one
(the source comment says "for new users", but only key presence is tested). -/
def sync_user_doc (now : Nat) (user : Doc) : Doc :=
  let base : Doc :=
    [("username", user.getD "username" (.str "")),
     ("role", user.getD "role" (.str "user")),
     ("created_at", pyDtToIso (user.getD "created_at" (.str (isoformat now)))),
     ("last_login", pyDtToIso (user.getD "last_login" .none)),
     ("id", user.getD "id" .none)]
  if user.hasKey "password_hash" then
    base ++ [("password_hash", user.getD "password_hash" .none)]
  else base

/-- `FirebaseSync.sync_users`: per-user `set(..., merge=True)` keyed by
`user['id']`; a per-user exception (missing or non-string id, or a write
rejected by the oracle `setOk`) is caught and that user is skipped. -/
def sync_users (connected : Bool) (setOk : String → Bool) (now : Nat)
    (users : FireStoreColl) (userDicts : List Doc) : Nat × FireStoreColl :=
  if !connected then (0, users)
  else
    userDicts.foldl
      (fun acc user =>
        match (user.get? "id").bind pyStr? with
        | Option.none => acc
        | some uid =>
          if setOk uid then
            (acc.1 + 1, collSetMerge acc.2 uid (sync_user_doc now user))
          else acc)
      (0, users)

/-- The per-article document built by `FirebaseSync.sync_articles`
(exactly the eight fields written by the pending push). -/
def sync_article_doc (now : Nat) (aid : String) (a : Doc) : Doc :=
  [("id", .str aid),
   ("article_name", a.getD "article_name" (.str "")),
   ("mould", a.getD "mould" (.str "")),
   ("size", a.getD "size" (.str "")),
   ("gender", a.getD "gender" (.str "")),
   ("created_by", a.getD "created_by" (.str "")),
   ("created_at", pyDtToIso (a.getD "created_at" (.str (isoformat now)))),
   ("updated_at", pyDtToIso (a.getD "updated_at" (.str (isoformat now))))]

/-- `FirebaseSync.sync_articles`: for each dict with `sync_status == 0`, one
`set(..., merge=True)`; a failed write (oracle `setOk` false, standing for
the per-article caught exception) is skipped and not counted.  Returns the
success count and, for the proofs, the list of performed writes. -/
def sync_articles (connected : Bool) (setOk : String → Bool) (now : Nat)
    (articles : List Doc) : Nat × List (String × Doc) :=
  if !connected then (0, [])
  else
    articles.foldl
      (fun acc a =>
        if a.getD "sync_status" (.int 0) = .int 0 then
          match (a.get? "id").bind pyStr? with
          | Option.none => acc
          | some aid =>
            if setOk aid then
              (acc.1 + 1, acc.2 ++ [(aid, sync_article_doc now aid a)])
            else acc
        else acc)
      (0, [])

/-- The per-article document built by `FirebaseSync.batch_sync_articles`
(textually the same eight fields as in `sync_articles`). -/
def batch_article_doc (now : Nat) (aid : String) (a : Doc) : Doc :=
  [("id", .str aid),
   ("article_name", a.getD "article_name" (.str "")),
   ("mould", a.getD "mould" (.str "")),
   ("size", a.getD "size" (.str "")),
   ("gender", a.getD "gender" (.str "")),
   ("created_by", a.getD "created_by" (.str "")),
   ("created_at", pyDtToIso (a.getD "created_at" (.str (isoformat now)))),
   ("updated_at", pyDtToIso (a.getD "updated_at" (.str (isoformat now))))]

/-- One batch-staging pass of `batch_sync_articles`: stage every pending
article of the chunk.  There is no per-article `try` in the batch variant,
so an article whose `article['id']` lookup fails raises out of the loop:
the boolean result records whether the pass completed.  The staged list and
the number of `synced += 1` increments always agree. -/
def stage_batch (now : Nat) : List Doc → List (String × Doc) × Bool
  | [] => ([], true)
  | a :: rest =>
    if a.getD "sync_status" (.int 0) = .int 0 then
      match (a.get? "id").bind pyStr? with
      | Option.none => ([], false)
      | some aid =>
        let r := stage_batch now rest
        ((aid, batch_article_doc now aid a) :: r.1, r.2)
    else stage_batch now rest

/-- Fuel-driven chunking of `for i in range(0, len(articles), batch_size)`
with slices `articles[i:i+batch_size]`; `len(articles)` fuel suffices for
any positive batch size. -/
def chunksOfAux (bs : Nat) : Nat → List Doc → List (List Doc)
  | 0, _ => []
  | _, [] => []
  | fuel + 1, l => l.take bs :: chunksOfAux bs fuel (l.drop bs)

/-- The batch slices taken by `batch_sync_articles`. -/
def chunksOf (bs : Nat) (l : List Doc) : List (List Doc) :=
  if bs = 0 then [] else chunksOfAux bs l.length l

/-- The chunk loop of `batch_sync_articles`: stage a chunk (incrementing
`synced` per staged article), then `batch.commit()`; a staging exception or
a failed commit (oracle `commitOk` false on that batch index) escapes to
the outer handler, which returns the `synced` counter as it stands —
including the staged-but-uncommitted articles of the failed batch. -/
def batch_run (now : Nat) (commitOk : Nat → Bool) :
    List (List Doc) → Nat → Nat → List (String × Doc) →
    Nat × List (String × Doc)
  | [], _, synced, written => (synced, written)
  | c :: rest, j, synced, written =>
    let st := stage_batch now c
    let synced2 := synced + st.1.length
    if st.2 && commitOk j then
      batch_run now commitOk rest (j + 1) synced2 (written ++ st.1)
    else
      (synced2, written)

/-- `FirebaseSync.batch_sync_articles`: returns the `synced` counter and,
for the proofs, the list of documents actually committed to the remote
store. -/
def batch_sync_articles (connected : Bool) (commitOk : Nat → Bool) (now : Nat)
    (articles : List Doc) (batch_size : Nat) : Nat × List (String × Doc) :=
  if !connected then (0, [])
  else batch_run now commitOk (chunksOf batch_size articles) 0 0 []

/-- The update set actually written by `FirebaseSync.update_article`:
datetimes serialized, then `updated_at` overwritten with the current time. -/
def fb_update_article_doc (now : Nat) (updates : Doc) : Doc :=
  Doc.setKey (updates.map (fun kv => (kv.1, pyDtToIso kv.2)))
    "updated_at" (.str (isoformat now))

/-- The methods defined by class `FirebaseSync` in `db/firebase_sync.py`. -/
def firebaseSyncMethodNames : List String :=
  ["initialize", "authenticate_user", "create_user", "update_user",
   "update_user_last_login", "sync_articles", "sync_users",
   "get_articles_from_firebase", "get_users_from_firebase",
   "update_article", "delete_article", "delete_user",
   "get_article_by_id", "get_user_by_id", "batch_sync_articles",
   "is_connected", "get_sync_status"]

/-- State of the `FirebaseSync` object plus the remote store. -/
structure FirebaseState where
  initialized : Bool
  networkOk : Bool
  articles : FireStoreColl
  users : FireStoreColl
  deriving Repr, DecidableEq

/-- `FirebaseSync.is_connected`. -/
def FirebaseState.is_connected (fb : FirebaseState) : Bool :=
  fb.initialized && fb.networkOk

/-- The attribute access `self.firebase.initial_sync_from_firebase(self.db)`
performed at `main.py:118`: Python raises `AttributeError` when the name is
not among the methods the class defines.  (`FirebaseSync` defines no such
method, so the success branch is unreachable and returns the database
unchanged — there is no method body in the source to translate.) -/
def fs_initial_sync_call (db : LocalDB) : Except PyExc LocalDB :=
  if firebaseSyncMethodNames.contains "initial_sync_from_firebase" then
    .ok db
  else
    .error .attributeError

/-- `NexuzyApp.initial_firebase_sync` (`main.py:102`): skip when Firebase is
not connected; otherwise read the local counts, then call
`initial_sync_from_firebase`; any exception is caught and only logged, so
the local database is returned as it stands. -/
def initial_firebase_sync (fb : FirebaseState) (db : LocalDB) : LocalDB :=
  if !fb.is_connected then db
  else
    let _localArticles := get_articles_count db
    let _localUsers := (get_all_users db).length
    match fs_initial_sync_call db with
    | .ok db2 => db2
    | .error _ => db

/-- The marking phase of `AdminDashboard.sync_data` / `refresh_data`, given
the fetched pending list: convert to dicts, push via `sync_articles`, then
mark the FIRST `synced_count` articles of the pending list as synced
(`for article in pending_articles[:synced_count]`). -/
def sync_data_mark (setOk : String → Bool) (now : Nat)
    (pending : List Article) (db : LocalDB) : LocalDB × List (String × Doc) :=
  let dicts := pending.map Article.to_dict
  let res := sync_articles true setOk now dicts
  let db2 := (pending.take res.1).foldl (fun d a => mark_article_synced d a.id) db
  (db2, res.2)

/-- `AdminDashboard.sync_data`: fetch the pending articles and run the
marking phase (no-op when Firebase is unavailable or nothing is pending). -/
def sync_data (fbConnected : Bool) (setOk : String → Bool) (now : Nat)
    (db : LocalDB) : LocalDB × List (String × Doc) :=
  if !fbConnected then (db, [])
  else
    let pending := get_pending_articles db
    if pending.isEmpty then (db, [])
    else sync_data_mark setOk now pending db

/-- Outcome of one FTP fetch attempt for a given remote path. -/
inductive FTPOutcome where
  | success
  | failBeforeRetr
  | failDuringRetr
  deriving Repr, DecidableEq

/-- Remote paths and filenames of the cache component are modelled as
character lists (the component inspects them character-wise). -/
abbrev PathStr := List Char

/-- Environment of the image cache: the cache directory, the deterministic
digest prefix (`hashlib.md5(path).hexdigest()[:12]`) and the FTP oracle. -/
structure CacheEnv where
  cacheDir : PathStr
  md5hex12 : PathStr → PathStr
  ftp : PathStr → FTPOutcome

/-- Cache-directory state plus the trace of attempted FTP file transfers. -/
structure CacheState where
  files : List PathStr
  retrTrace : List PathStr

/-- Characters after the last occurrence of a separator. -/
def afterLastChar (sep : Char) (l : PathStr) : PathStr :=
  l.foldl (fun acc c => if c == sep then [] else acc ++ [c]) []

/-- Basename of a path (`os.path.basename`). -/
def basenameChars (p : PathStr) : PathStr :=
  afterLastChar '/' p

/-- Extension of a basename (`os.path.splitext(...)[1]`): the part from the
last dot, empty when there is no dot beyond a leading run of dots. -/
def splitext_ext (base : PathStr) : PathStr :=
  let stripped := base.dropWhile (fun c => c == '.')
  if stripped.contains '.' then '.' :: afterLastChar '.' stripped else []

/-- `ImageSyncManager._get_cache_filename`: md5 digest prefix of the FTP
path plus the original extension (defaulting to `.jpg`). -/
def cache_filename (env : CacheEnv) (p : PathStr) : PathStr :=
  let ext := splitext_ext (basenameChars p)
  env.md5hex12 p ++ (if ext.isEmpty then ['.', 'j', 'p', 'g'] else ext)

/-- The full local path of a cache entry
(`os.path.join(self.cache_dir, cache_filename)`). -/
def cache_path (env : CacheEnv) (p : PathStr) : PathStr :=
  env.cacheDir ++ '/' :: cache_filename env p

/-- The validity test `if not ftp_path or not ftp_path.startswith('/')`. -/
def valid_ftp_path (p : PathStr) : Bool :=
  match p with
  | [] => false
  | c :: _ => c == '/'

/-- `ImageSyncManager.get_cached_path`: pure lookup, no FTP. -/
def get_cached_path (env : CacheEnv) (st : CacheState) (p : PathStr) :
    Option PathStr :=
  if !valid_ftp_path p then Option.none
  else if st.files.contains (cache_filename env p) then some (cache_path env p)
  else Option.none

/-- Record a file as present in the cache directory. -/
def addCacheFile (files : List PathStr) (f : PathStr) : List PathStr :=
  if files.contains f then files else files ++ [f]

/-- `FTPUploader.download_image` into a given cache filename: a connect/cwd
failure transfers nothing; a failure during `retrbinary` has already opened
the destination file (leaving a partial cache entry) and attempted the
transfer; success writes the file.  Failures are returned, not raised. -/
def ftp_download_image (env : CacheEnv) (st : CacheState) (p : PathStr)
    (destFile : PathStr) : Bool × CacheState :=
  match env.ftp p with
  | .failBeforeRetr => (false, st)
  | .failDuringRetr =>
    (false, { files := addCacheFile st.files destFile,
              retrTrace := st.retrTrace ++ [p] })
  | .success =>
    (true, { files := addCacheFile st.files destFile,
             retrTrace := st.retrTrace ++ [p] })

/-- `ImageSyncManager.download_image` (the spec's `ensure_local`): reject
invalid paths; return the cached path without FTP when the entry exists and
`force` is not set; otherwise download via FTP into the cache. -/
def download_image (env : CacheEnv) (st : CacheState) (p : PathStr)
    (force : Bool) : Option PathStr × CacheState :=
  if !valid_ftp_path p then (Option.none, st)
  else
    let fname := cache_filename env p
    let cpath := cache_path env p
    if st.files.contains fname && !force then (some cpath, st)
    else
      match ftp_download_image env st p fname with
      | (true, st2) => (some cpath, st2)
      | (false, st2) => (Option.none, st2)

/-- Whether an article dict carries a string `id` (required by the push
paths, which key the remote document by `article['id']`). -/
def doc_has_str_id (a : Doc) : Bool :=
  ((a.get? "id").bind pyStr?).isSome

/-- C1 scenario: connected Firebase whose remote `articles` collection holds
exactly the spec's item. -/
def c1_fb : FirebaseState :=
  { initialized := true, networkOk := true,
    articles := [("Fides-AB12CD",
      [("id", .str "Fides-AB12CD"), ("article_name", .str "Widget"),
       ("created_by", .str "u1")])],
    users := [] }

/-- C1 scenario: fresh-install (empty) local database. -/
def c1_db : LocalDB :=
  { users := [], articles := [] }

/-- C2 scenario: first pending article (older). -/
def c2_a1 : Article :=
  { id := "A1", article_name := "N1", mould := "M", size := "S", gender := "G",
    created_by := "u1", created_at := 1, updated_at := some 1, sync_status := 0 }

/-- C2 scenario: second pending article (newer). -/
def c2_a2 : Article :=
  { c2_a1 with id := "A2", created_at := 2 }

/-- C2 scenario: the corresponding local rows, both pending. -/
def c2_db : LocalDB :=
  { users := [],
    articles :=
      [{ id := "A1", article_name := "N1", mould := "M", size := "S",
         gender := "G", created_by := "u1", created_at := 1, updated_at := 1,
         sync_status := 0, image_path := Option.none },
       { id := "A2", article_name := "N1", mould := "M", size := "S",
         gender := "G", created_by := "u1", created_at := 2, updated_at := 2,
         sync_status := 0, image_path := Option.none }] }

/-- C2 scenario: the remote write oracle — the upsert of A1 fails, the
upsert of A2 succeeds. -/
def c2_setOk : String → Bool :=
  fun aid => aid == "A2"

/-- C3 witness database: one stored article row. -/
def c3_db : LocalDB :=
  { users := [],
    articles := [{ id := "A1", article_name := "N", mould := "M", size := "S",
                   gender := "G", created_by := "u1", created_at := 1,
                   updated_at := 1, sync_status := 0, image_path := Option.none }] }

/-- C4 witness environment: fixed digest, always-successful FTP. -/
def c4_env : CacheEnv :=
  { cacheDir := ['/', 'c', 'a', 'c', 'h', 'e'],
    md5hex12 := fun _ => ['d', '4', '1', 'd'],
    ftp := fun _ => .success }

/-- C4 witness state: empty cache, no transfers yet. -/
def c4_st : CacheState :=
  { files := [], retrTrace := [] }

/-- C4 witness remote path `/nexuzy/a.jpg`. -/
def c4_p : PathStr :=
  ['/', 'n', 'e', 'x', 'u', 'z', 'y', '/', 'a', '.', 'j', 'p', 'g']

/-- C5 scenario: the existing account. -/
def c5_u1 : UserRow :=
  { id := "u1", username := "alice", password_hash := "h1", role := "user",
    last_login := Option.none, created_at := 1 }

/-- C5 scenario: local store holding the existing account. -/
def c5_db : LocalDB :=
  { users := [c5_u1], articles := [] }

/-- C5 scenario: a second account with the same handle, different id. -/
def c5_dup : UserRow :=
  { c5_u1 with id := "u2", password_hash := "h2" }

/-- C6 scenario: remote `users` collection already holding account u1. -/
def c6_store : FireStoreColl :=
  [("u1", [("username", .str "alice"), ("role", .str "user"), ("id", .str "u1")])]

/-- C6 scenario: caller-supplied dict for the pre-existing account u1,
containing its password hash. -/
def c6_user : Doc :=
  [("id", .str "u1"), ("username", .str "alice"), ("role", .str "user"),
   ("created_at", .str "1"), ("last_login", .none), ("password_hash", .str "h")]

/-- C7 witness row: a previously synced article. -/
def c7_row : ArticleRow :=
  { id := "A1", article_name := "N", mould := "M", size := "S", gender := "G",
    created_by := "u1", created_at := 1, updated_at := 1, sync_status := 1,
    image_path := Option.none }

/-- C7 witness database. -/
def c7_db : LocalDB :=
  { users := [], articles := [c7_row] }

/-- C8 scenario: one pending article dict. -/
def c8_article : Doc :=
  [("id", .str "A1"), ("article_name", .str "N"), ("sync_status", .int 0)]

/-- C9 scenario: a database with exactly one pending article row. -/
def c9_db : LocalDB :=
  { users := [],
    articles := [{ id := "A1", article_name := "N", mould := "M", size := "S",
                   gender := "G", created_by := "u1", created_at := 1,
                   updated_at := 1, sync_status := 0, image_path := Option.none }] }

/-- Every `Article(...)` construction from a fetched row raises `TypeError`:
the call passes the keyword `image_path`, which the dataclass does not
declare. -/
theorem mkArticleFromRow_typeError (r : ArticleRow) :
    mkArticleFromRow r = .error .typeError := rfl

/-- The shared row loop therefore always returns the empty list. -/
theorem articlesFromRows_nil (rs : List ArticleRow) :
    articlesFromRows rs = [] := by
  cases rs with
  | nil => rfl
  | cons r rest => rfl

/-- Looking an article up by id never yields an object. -/
theorem get_article_by_id_none (db : LocalDB) (aid : String) :
    get_article_by_id db aid = Option.none := by
  unfold get_article_by_id
  cases h : db.articles.find? (fun r => r.id == aid) with
  | none => rfl
  | some r => simp [mkArticleFromRow_typeError]

/-- C3: whenever the articles table holds at least one row, the object
constructors raise on the undeclared `image_path` keyword, so
`get_article_by_id` returns `None` and `get_all_articles`,
`get_pending_articles` and `get_articles_by_user` return the empty list. -/
theorem c3_article_reads_collapse (db : LocalDB) (aid uid : String)
    (h : db.articles ≠ []) :
    get_article_by_id db aid = Option.none ∧
    get_all_articles db = [] ∧
    get_pending_articles db = [] ∧
    get_articles_by_user db uid = [] :=
  ⟨get_article_by_id_none db aid, articlesFromRows_nil _,
   articlesFromRows_nil _, articlesFromRows_nil _⟩

/-- C3 witness: a store with one article row, evaluated concretely. -/
theorem c3_article_reads_collapse_witness :
    c3_db.articles ≠ [] ∧
    (get_article_by_id c3_db "A1" = Option.none ∧
     get_all_articles c3_db = [] ∧
     get_pending_articles c3_db = [] ∧
     get_articles_by_user c3_db "u1" = []) :=
  ⟨by decide, c3_article_reads_collapse c3_db "A1" "u1" (by decide)⟩

/-- C9: with exactly one pending row stored, `get_pending_articles` returns
the empty list instead of that article (the `ORDER BY created_at ASC` query
fetches the row, but the `Article(...)` construction raises and the handler
returns `[]`), so a push run gets an empty input. -/
theorem c9_pending_query_collapses :
    c9_db.articles.countP (fun r => r.sync_status == 0) = 1 ∧
    get_pending_articles c9_db = [] :=
  ⟨by decide, articlesFromRows_nil _⟩

/-- C1: `FirebaseSync` defines no `initial_sync_from_firebase` method, so
the startup import call at `main.py:118` raises `AttributeError`, the
handler swallows it, and a fresh install with a non-empty remote store
imports nothing: the local store stays empty and listing returns `[]`
instead of the spec's single synced item. -/
theorem c1_initial_import_never_imports :
    firebaseSyncMethodNames.contains "initial_sync_from_firebase" = false ∧
    fs_initial_sync_call c1_db = .error .attributeError ∧
    initial_firebase_sync c1_fb c1_db = c1_db ∧
    get_all_articles (initial_firebase_sync c1_fb c1_db) = [] :=
  ⟨by decide, rfl, rfl, articlesFromRows_nil _⟩

/-- C2: the dashboard push marks `pending_articles[:synced_count]` — the
first `synced_count` items, not the successful ones.  Here the remote write
of A1 fails and that of A2 succeeds; the only performed write is A2's, yet
A1 (the failed article) is flipped to synced while A2 (the successful one)
stays pending.  Moreover the composed `sync_data` run on the real store is
inert because `get_pending_articles` returns `[]` (claim C3). -/
theorem c2_marking_misattributes_success :
    (sync_data_mark c2_setOk 5 [c2_a1, c2_a2] c2_db).2.map Prod.fst = ["A2"] ∧
    ((sync_data_mark c2_setOk 5 [c2_a1, c2_a2] c2_db).1.articles.find?
        (fun r => r.id == "A1")).map (fun r => r.sync_status) = some 1 ∧
    ((sync_data_mark c2_setOk 5 [c2_a1, c2_a2] c2_db).1.articles.find?
        (fun r => r.id == "A2")).map (fun r => r.sync_status) = some 0 ∧
    sync_data true c2_setOk 5 c2_db = (c2_db, []) :=
  ⟨rfl, rfl, rfl, rfl⟩

/-- C10: the documents written per article by both push variants carry
exactly the eight fields id, article_name, mould, size, gender, created_by,
created_at, updated_at — never `image_path` (nor does `Article.to_dict`
produce one) — while the direct edit path's update set does carry
`image_path`, both as handed over by `LocalDatabase.update_article` and in
the final document written by `FirebaseSync.update_article`. -/
theorem c10_push_never_writes_image_path (now : Nat) (aid : String) (a : Doc)
    (article_name mould size gender : String) (image_path : Option String)
    (art : Article) :
    (sync_article_doc now aid a).keys
      = ["id", "article_name", "mould", "size", "gender", "created_by",
         "created_at", "updated_at"] ∧
    (batch_article_doc now aid a).keys
      = ["id", "article_name", "mould", "size", "gender", "created_by",
         "created_at", "updated_at"] ∧
    ((sync_article_doc now aid a).keys.contains "image_path") = false ∧
    ((batch_article_doc now aid a).keys.contains "image_path") = false ∧
    (Article.to_dict art).keys
      = ["id", "article_name", "mould", "size", "gender", "created_by",
         "created_at", "updated_at", "sync_status"] ∧
    ((localUpdateArticleUpdates article_name mould size gender
        image_path).keys.contains "image_path") = true ∧
    ((fb_update_article_doc now (localUpdateArticleUpdates article_name mould
        size gender image_path)).keys.contains "image_path") = true :=
  ⟨rfl, rfl, rfl, rfl, rfl, rfl, rfl⟩

/-- A handle collision makes the `INSERT` raise `sqlite3.IntegrityError`. -/
theorem add_user_conflict_any (db : LocalDB) (u : UserRow) (r : UserRow)
    (hr : r ∈ db.users) (hname : r.username = u.username) :
    db.users.any (fun x => x.id == u.id || x.username == u.username) = true := by
  apply List.any_eq_true.mpr
  refine ⟨r, hr, ?_⟩
  simp [hname]

/-- C5 (amended): inserting an account whose handle collides with an
existing row of a different id is rejected locally — the row set is
unchanged and no remote call is attempted — but the rejection is reported
as the plain boolean return `False` (the caught `IntegrityError`), not as a
typed `ConflictError`. -/
theorem c5_duplicate_handle_rejected (db : LocalDB) (u : UserRow) (r : UserRow)
    (hr : r ∈ db.users) (hname : r.username = u.username) (hid : r.id ≠ u.id) :
    add_user db u = (Except.ok false, db, []) := by
  unfold add_user
  rw [add_user_conflict_any db u r hr hname]
  simp

/-- C5 witness: concrete duplicate-handle insertion. -/
theorem c5_duplicate_handle_rejected_witness :
    (c5_u1 ∈ c5_db.users ∧ c5_u1.username = c5_dup.username ∧
      c5_u1.id ≠ c5_dup.id) ∧
    add_user c5_db c5_dup = (Except.ok false, c5_db, []) :=
  ⟨⟨by decide, rfl, by decide⟩,
   c5_duplicate_handle_rejected c5_db c5_dup c5_u1 (by decide) rfl (by decide)⟩

/-- C5 counterexample: the rejection is the ordinary value `ok False` with
the store unchanged and no remote operation — not an error of any kind, in
particular not `ConflictError`. -/
theorem c5_counterexample_no_conflict_error :
    add_user c5_db c5_dup = (Except.ok false, c5_db, []) ∧
    (Except.ok false : Except PyExc Bool) ≠ Except.error PyExc.conflictError :=
  ⟨rfl, fun h => Except.noConfusion h⟩

/-- `update_user` filters `password_hash` out of every update set. -/
theorem safe_updates_no_password (d : Doc) :
    ((update_user_safe_updates d).keys.contains "password_hash") = false := by
  induction d with
  | nil => rfl
  | cons kv rest ih =>
    by_cases h : kv.1 = "password_hash"
    · simpa [update_user_safe_updates, List.filter_cons, h, Doc.keys]
        using ih
    · simpa [update_user_safe_updates, List.filter_cons, h, Doc.keys,
             bne_iff_ne, Ne.symm h] using ih

/-- `sync_users` adds `password_hash` to the written document exactly when
the caller-supplied dict contains that key. -/
theorem sync_user_doc_password_iff (now : Nat) (user : Doc) :
    ((sync_user_doc now user).keys.contains "password_hash")
      = user.hasKey "password_hash" := by
  unfold sync_user_doc
  cases h : user.hasKey "password_hash" with
  | false => simp [h, Doc.keys]
  | true => simp [h, Doc.keys]

/-- C6 (amended): the metadata-only `update_user` never includes
`password_hash` in the update set it writes, while the bulk push
`sync_users` includes `password_hash` exactly when the caller-supplied dict
carries that key — irrespective of whether the account already exists in
the remote store. -/
theorem c6_credential_key_routing (updates user : Doc) (now : Nat) :
    ((update_user_safe_updates updates).keys.contains "password_hash") = false ∧
    ((sync_user_doc now user).keys.contains "password_hash")
      = user.hasKey "password_hash" :=
  ⟨safe_updates_no_password updates, sync_user_doc_password_iff now user⟩

/-- C6 counterexample: account u1 already exists remotely, yet the
`sync_users` push of a dict carrying `password_hash` writes the hash into
the pre-existing remote document. -/
theorem c6_counterexample_hash_written_for_existing :
    ((c6_store.map Prod.fst).contains "u1") = true ∧
    ((sync_users true (fun _ => true) 0 c6_store [c6_user]).2.find?
        (fun e => e.1 == "u1")).map (fun e => e.2.hasKey "password_hash")
      = some true :=
  ⟨rfl, rfl⟩

/-- A file just recorded in the cache directory is found there. -/
theorem addCacheFile_contains_self (fs : List PathStr) (f : PathStr) :
    (addCacheFile fs f).contains f = true := by
  unfold addCacheFile
  by_cases h : fs.contains f = true
  · simp only [h, if_true]
  · have h2 : f ∉ fs := by simpa using (Bool.eq_false_iff.mpr h)
    simp [h2]

/-- C4: for a valid remote path not yet cached whose transfer succeeds, the
first `download_image` call performs exactly one FTP transfer and returns
the cache path; the second call without `force` is a pure cache hit — the
state (including the transfer trace) is unchanged and the same path is
returned; `get_cached_path` is null before the first call and returns the
cached local path afterwards. -/
theorem c4_cache_idempotent (env : CacheEnv) (st : CacheState) (p : PathStr)
    (hv : valid_ftp_path p = true)
    (hmiss : st.files.contains (cache_filename env p) = false)
    (hftp : env.ftp p = .success) :
    get_cached_path env st p = Option.none ∧
    (download_image env st p false).1 = some (cache_path env p) ∧
    (download_image env st p false).2.retrTrace = st.retrTrace ++ [p] ∧
    download_image env (download_image env st p false).2 p false
      = (some (cache_path env p), (download_image env st p false).2) ∧
    get_cached_path env (download_image env st p false).2 p
      = some (cache_path env p) := by
  have hmiss2 : cache_filename env p ∉ st.files := by simpa using hmiss
  have hhit : cache_filename env p ∈ addCacheFile st.files (cache_filename env p) := by
    simpa using addCacheFile_contains_self st.files (cache_filename env p)
  have hd1 : download_image env st p false
      = (some (cache_path env p),
         { files := addCacheFile st.files (cache_filename env p),
           retrTrace := st.retrTrace ++ [p] }) := by
    simp [download_image, hv, hmiss2, ftp_download_image, hftp]
  refine ⟨?_, ?_, ?_, ?_, ?_⟩
  · simp [get_cached_path, hv, hmiss2]
  · rw [hd1]
  · rw [hd1]
  · rw [hd1]
    simp [download_image, hv, hhit]
  · rw [hd1]
    simp [get_cached_path, hv, hhit]

/-- C4 witness: fresh cache, path `/nexuzy/a.jpg`, successful transfer. -/
theorem c4_cache_idempotent_witness :
    (valid_ftp_path c4_p = true ∧
     c4_st.files.contains (cache_filename c4_env c4_p) = false ∧
     c4_env.ftp c4_p = .success) ∧
    (get_cached_path c4_env c4_st c4_p = Option.none ∧
     (download_image c4_env c4_st c4_p false).1 = some (cache_path c4_env c4_p) ∧
     (download_image c4_env c4_st c4_p false).2.retrTrace
       = c4_st.retrTrace ++ [c4_p] ∧
     download_image c4_env (download_image c4_env c4_st c4_p false).2 c4_p false
       = (some (cache_path c4_env c4_p), (download_image c4_env c4_st c4_p false).2) ∧
     get_cached_path c4_env (download_image c4_env c4_st c4_p false).2 c4_p
       = some (cache_path c4_env c4_p)) :=
  ⟨⟨rfl, rfl, rfl⟩, c4_cache_idempotent c4_env c4_st c4_p rfl rfl rfl⟩

/-- `find?` commutes with a map that preserves the predicate. -/
theorem find?_map_pred (p : ArticleRow → Bool) (f : ArticleRow → ArticleRow)
    (hpf : ∀ x, p (f x) = p x) (l : List ArticleRow) :
    (l.map f).find? p = (l.find? p).map f := by
  induction l with
  | nil => rfl
  | cons a rest ih =>
    cases h : p a with
    | true =>
      have hfa : p (f a) = true := by rw [hpf a, h]
      rw [List.map_cons, List.find?_cons_of_pos _ hfa, List.find?_cons_of_pos _ h]
      rfl
    | false =>
      have hfa : p (f a) = false := by rw [hpf a, h]
      rw [List.map_cons, List.find?_cons_of_neg _ (by simp [hfa]),
          List.find?_cons_of_neg _ (by simp [h]), ih]

/-- C7: a successful `update_article` on an existing article always resets
it to pending (`sync_status = 0`), bumps `updated_at` to the edit time and
returns `True` — also when the article was previously synced — while a
non-existent id leaves the store unchanged and returns `False`. -/
theorem c7_update_article_resets_pending (db : LocalDB) (fbC : Bool) (now : Nat)
    (aid article_name mould size gender : String) (image_path : Option String)
    (r : ArticleRow) :
    (db.articles.find? (fun x => x.id == aid) = some r →
      (update_article db fbC now aid article_name mould size gender image_path).1
        = Except.ok true ∧
      ((update_article db fbC now aid article_name mould size gender
          image_path).2.1.articles.find? (fun x => x.id == aid))
        = some { r with
                 article_name := article_name, mould := mould,
                 size := size, gender := gender, updated_at := now,
                 sync_status := 0, image_path := image_path }) ∧
    (db.articles.find? (fun x => x.id == aid) = Option.none →
      (update_article db fbC now aid article_name mould size gender image_path).1
        = Except.ok false ∧
      (update_article db fbC now aid article_name mould size gender
          image_path).2.1 = db) := by
  have hpf : ∀ x : ArticleRow,
      ((fun y : ArticleRow => y.id == aid)
        (if x.id == aid then
          { x with article_name := article_name, mould := mould, size := size,
                   gender := gender, updated_at := now, sync_status := 0,
                   image_path := image_path }
         else x))
        = ((fun y : ArticleRow => y.id == aid) x) := by
    intro x
    by_cases hx : (x.id == aid) = true
    · simp [hx]
    · simp [hx]
  constructor
  · intro hf
    have hmem := List.mem_of_find?_eq_some hf
    have hpr : (r.id == aid) = true := by
      have h2 := List.find?_some (p := fun x : ArticleRow => x.id == aid) hf
      simpa using h2
    constructor
    · have hpos : 0 < db.articles.countP (fun x => x.id == aid) :=
        List.countP_pos_iff.mpr ⟨r, hmem, hpr⟩
      simp [update_article, hpos]
    · show ((db.articles.map _).find? _) = _
      rw [find?_map_pred _ _ hpf, hf]
      show some _ = some _
      beta_reduce
      rw [if_pos hpr]
  · intro hf
    have hall := List.find?_eq_none.mp hf
    constructor
    · have hzero : db.articles.countP (fun x => x.id == aid) = 0 :=
        List.countP_eq_zero.mpr hall
      simp [update_article, hzero]
    · show { db with articles := db.articles.map _ } = db
      have hmap : db.articles.map
          (fun x => if x.id == aid then
            { x with article_name := article_name, mould := mould, size := size,
                     gender := gender, updated_at := now, sync_status := 0,
                     image_path := image_path }
           else x) = db.articles := by
        have hcong : ∀ x ∈ db.articles,
            (if x.id == aid then
              { x with article_name := article_name, mould := mould, size := size,
                       gender := gender, updated_at := now, sync_status := 0,
                       image_path := image_path }
             else x) = x := by
          intro x hx
          rw [if_neg]
          exact hall x hx
        rw [List.map_congr_left hcong]
        simp
      rw [hmap]

/-- C7 witness: editing a previously synced article. -/
theorem c7_update_article_resets_pending_witness :
    c7_db.articles.find? (fun x => x.id == "A1") = some c7_row ∧
    ((update_article c7_db true 9 "A1" "N2" "M2" "S2" "G2" (some "/img")).1
        = Except.ok true ∧
     ((update_article c7_db true 9 "A1" "N2" "M2" "S2" "G2"
         (some "/img")).2.1.articles.find? (fun x => x.id == "A1"))
       = some { c7_row with
                article_name := "N2", mould := "M2", size := "S2",
                gender := "G2", updated_at := 9, sync_status := 0,
                image_path := some "/img" }) :=
  ⟨rfl,
   (c7_update_article_resets_pending c7_db true 9 "A1" "N2" "M2" "S2" "G2"
      (some "/img") c7_row).1 rfl⟩

/-- A chunk whose articles all carry a string id stages without raising. -/
theorem stage_batch_ok (now : Nat) (c : List Doc)
    (h : ∀ a ∈ c, doc_has_str_id a = true) :
    (stage_batch now c).2 = true := by
  induction c with
  | nil => rfl
  | cons a rest ih =>
    have ha : doc_has_str_id a = true := h a (List.mem_cons_self a rest)
    have hrest : ∀ x ∈ rest, doc_has_str_id x = true :=
      fun x hx => h x (List.mem_cons_of_mem a hx)
    unfold stage_batch
    by_cases hp : a.getD "sync_status" (.int 0) = .int 0
    · rw [if_pos hp]
      cases hid : (a.get? "id").bind pyStr? with
      | none =>
        exfalso
        unfold doc_has_str_id at ha
        rw [hid] at ha
        simp at ha
      | some aid => simpa using ih hrest
    · rw [if_neg hp]
      exact ih hrest

/-- Every chunk the batch loop takes has at most `batch_size` articles. -/
theorem chunksOfAux_length_le (bs : Nat) :
    ∀ (fuel : Nat) (l : List Doc), ∀ c ∈ chunksOfAux bs fuel l, c.length ≤ bs := by
  intro fuel
  induction fuel with
  | zero =>
    intro l c hc
    simp [chunksOfAux] at hc
  | succ n ih =>
    intro l c hc
    cases l with
    | nil => simp [chunksOfAux] at hc
    | cons a rest =>
      rcases List.mem_cons.mp hc with h1 | h2
      · subst h1
        exact (a :: rest).length_take_le bs
      · exact ih _ c h2

/-- Chunk members come from the original article list. -/
theorem chunksOfAux_subset (bs : Nat) :
    ∀ (fuel : Nat) (l : List Doc), ∀ c ∈ chunksOfAux bs fuel l, ∀ a ∈ c, a ∈ l := by
  intro fuel
  induction fuel with
  | zero =>
    intro l c hc
    simp [chunksOfAux] at hc
  | succ n ih =>
    intro l c hc a ha
    cases l with
    | nil => simp [chunksOfAux] at hc
    | cons x rest =>
      rcases List.mem_cons.mp hc with h1 | h2
      · subst h1
        exact List.take_subset bs (x :: rest) ha
      · exact List.drop_subset bs (x :: rest) (ih _ c h2 a ha)

/-- When staging never raises and every commit succeeds, the `synced`
counter equals the number of committed documents. -/
theorem batch_run_count_eq (now : Nat) (commitOk : Nat → Bool)
    (hok : ∀ j, commitOk j = true) :
    ∀ (chunks : List (List Doc)) (j synced : Nat)
      (written : List (String × Doc)),
      (∀ c ∈ chunks, (stage_batch now c).2 = true) →
      synced = written.length →
      (batch_run now commitOk chunks j synced written).1
        = (batch_run now commitOk chunks j synced written).2.length := by
  intro chunks
  induction chunks with
  | nil =>
    intro j s w _ hs
    simpa [batch_run] using hs
  | cons c rest ih =>
    intro j s w hst hs
    have hc : (stage_batch now c).2 = true := hst c (List.mem_cons_self c rest)
    have hrest : ∀ x ∈ rest, (stage_batch now x).2 = true :=
      fun x hx => hst x (List.mem_cons_of_mem c hx)
    have hrec := ih (j + 1) (s + (stage_batch now c).1.length)
      (w ++ (stage_batch now c).1) hrest (by simp [hs])
    simp only [batch_run]
    rw [hc, hok j]
    simpa using hrec

/-- The `synced` counter never undercounts the committed documents. -/
theorem batch_run_count_ge (now : Nat) (commitOk : Nat → Bool) :
    ∀ (chunks : List (List Doc)) (j synced : Nat)
      (written : List (String × Doc)),
      written.length ≤ synced →
      (batch_run now commitOk chunks j synced written).2.length
        ≤ (batch_run now commitOk chunks j synced written).1 := by
  intro chunks
  induction chunks with
  | nil =>
    intro j s w h
    simpa [batch_run] using h
  | cons c rest ih =>
    intro j s w h
    simp only [batch_run]
    by_cases hcond : ((stage_batch now c).2 && commitOk j) = true
    · rw [if_pos hcond]
      apply ih
      simp only [List.length_append]
      omega
    · rw [if_neg hcond]
      show w.length ≤ s + (stage_batch now c).1.length
      omega

/-- C8 (amended): `batch_sync_articles` chunks its writes into slices of at
most `batch_size` documents per remote commit; when every commit succeeds
(and the pending dicts are well-formed) its return value equals the number
of documents actually written, matching the unbatched contract; when a
failure interrupts the run, the return value still counts the documents
merely staged into the failed batch, so it can only exceed — never
undercount — the number actually written. -/
theorem c8_batch_push_contract (articles : List Doc) (bs : Nat)
    (commitOk : Nat → Bool) (now : Nat) :
    (∀ c ∈ chunksOf bs articles, c.length ≤ bs) ∧
    ((∀ a ∈ articles, doc_has_str_id a = true) → (∀ j, commitOk j = true) →
      (batch_sync_articles true commitOk now articles bs).1
        = (batch_sync_articles true commitOk now articles bs).2.length) ∧
    (batch_sync_articles true commitOk now articles bs).2.length
      ≤ (batch_sync_articles true commitOk now articles bs).1 := by
  have hbsa : batch_sync_articles true commitOk now articles bs
      = batch_run now commitOk (chunksOf bs articles) 0 0 [] := rfl
  refine ⟨?_, ?_, ?_⟩
  · intro c hc
    unfold chunksOf at hc
    by_cases hbs : bs = 0
    · rw [if_pos hbs] at hc
      simp at hc
    · rw [if_neg hbs] at hc
      exact chunksOfAux_length_le bs _ _ c hc
  · intro hids hok
    rw [hbsa]
    apply batch_run_count_eq now commitOk hok _ 0 0 []
    · intro c hc
      apply stage_batch_ok
      intro a ha
      apply hids
      unfold chunksOf at hc
      by_cases hbs : bs = 0
      · rw [if_pos hbs] at hc
        simp at hc
      · rw [if_neg hbs] at hc
        exact chunksOfAux_subset bs _ _ c hc a ha
    · rfl
  · rw [hbsa]
    apply batch_run_count_ge
    simp

/-- C8 witness: one pending article, batch size 500, all commits succeed. -/
theorem c8_batch_push_contract_witness :
    (∀ a ∈ [c8_article], doc_has_str_id a = true) ∧
    (batch_sync_articles true (fun _ => true) 0 [c8_article] 500).1
      = (batch_sync_articles true (fun _ => true) 0 [c8_article] 500).2.length :=
  ⟨by decide,
   (c8_batch_push_contract [c8_article] 500 (fun _ => true) 0).2.1
     (by decide) (fun _ => rfl)⟩

/-- C8 counterexample: one pending article and a failing commit — the run
returns 1 although zero documents were written to the remote store, so the
return value does not equal the count of records actually written when a
failure interrupts the run. -/
theorem c8_counterexample_overcount_on_failure :
    (batch_sync_articles true (fun _ => false) 0 [c8_article] 500).1 = 1 ∧
    (batch_sync_articles true (fun _ => false) 0 [c8_article] 500).2 = [] ∧
    (batch_sync_articles true (fun _ => false) 0 [c8_article] 500).1
      ≠ (batch_sync_articles true (fun _ => false) 0 [c8_article] 500).2.length :=
  ⟨rfl, rfl, by decide⟩
